import Mathlib

/-!
Shallow embedding of the core of the Bangladesh energy-transition simulation
suite (the annual energy-system accounting and scenario-sweep engine) and
proofs about it.

The embedding covers:
* `bangladesh_energy/utils/helpers.py` — the pure lookup-and-multiply helper
  functions (`calculate_emissions`, `calculate_water_use`, `calculate_land_use`,
  `calculate_employment`);
* `bangladesh_energy/models/environmental_model.py` — `EnvironmentalConfig`
  and the `EnvironmentalModel` lookup functions;
* `bangladesh_energy/models/economic_model.py` — `EconomicConfig`,
  `calculate_capex` (learning curve + inflation), `calculate_opex`,
  `calculate_lcoe`, `calculate_npv`, and the `(capex, lcoe)` projection of
  `analyze_investment` that the scenario runner reads;
* `bangladesh_energy/models/energy_system.py` — the capacity/generation state,
  `add_capacity`, `simulate_generation`, `calculate_renewable_share`, and
  `get_system_summary`;
* `bangladesh_energy/run_scenarios.py` and `bangladesh_energy/run_sensitivity.py`
  — `SimulationConfig`, the scenario `modify_config` variants, the shared
  annual result loop, `_modify_parameter` and the sensitivity sweep.

Python dictionaries are modelled as association lists (`List (String × _)`,
looked up with `List.lookup`); a dictionary access that can raise `KeyError`
is modelled in `Option` (`none` = the exception).  Pandas cells that can hold
`NaN` are modelled as `Option ℚ` (`none` = `NaN`); summing a frame skips `NaN`
cells, modelled with `Option.getD 0`.  Python floats are modelled as exact
rationals, except in the economic model where `0.8 ** ((year - 2020) / 2)`
has a genuinely fractional exponent, so monetary results there live in `ℝ`
(`Real.rpow`).  The process-wide `numpy` random stream is modelled as an
explicit noise function passed to the simulation.
-/

/-! ### `utils/helpers.py` -/

namespace Helpers

/-- `helpers.calculate_emissions`: `generation * emission_factors.get(technology, 0.0)`. -/
def calculate_emissions (technology : String) (generation : ℚ)
    (emission_factors : List (String × ℚ)) : ℚ :=
  generation * ((emission_factors.lookup technology).getD 0)

/-- `helpers.calculate_water_use`: `generation * water_factors.get(technology, 0.0)`. -/
def calculate_water_use (technology : String) (generation : ℚ)
    (water_factors : List (String × ℚ)) : ℚ :=
  generation * ((water_factors.lookup technology).getD 0)

/-- `helpers.calculate_land_use`: `capacity * land_use_factors.get(technology, 0.0)`. -/
def calculate_land_use (technology : String) (capacity : ℚ)
    (land_use_factors : List (String × ℚ)) : ℚ :=
  capacity * ((land_use_factors.lookup technology).getD 0)

/-- `helpers.calculate_employment`: `capacity * employment_factors.get(technology, 0.0)`. -/
def calculate_employment (technology : String) (capacity : ℚ)
    (employment_factors : List (String × ℚ)) : ℚ :=
  capacity * ((employment_factors.lookup technology).getD 0)

end Helpers

/-! ### `models/environmental_model.py` -/

namespace EnvironmentalModel

/-- `EnvironmentalConfig` (the three factor dictionaries). -/
structure EnvironmentalConfig where
  emission_factors : List (String × ℚ)
  water_factors : List (String × ℚ)
  land_use_factors : List (String × ℚ)

/-- The defaults installed by `EnvironmentalConfig.__post_init__`. -/
def defaultEnvironmentalConfig : EnvironmentalConfig where
  emission_factors :=
    [("natural_gas", 1/2), ("coal", 1), ("oil", 4/5), ("biomass", 1/10),
     ("solar_pv", 1/20), ("wind", 1/50), ("battery_storage", 1/10)]
  water_factors :=
    [("natural_gas", 1/2), ("coal", 3/2), ("oil", 4/5), ("biomass", 3/10),
     ("solar_pv", 1/10), ("wind", 0), ("battery_storage", 0)]
  land_use_factors :=
    [("solar_pv", 2000), ("wind", 5000), ("biomass", 1000), ("battery_storage", 100)]

/-- `EnvironmentalModel.calculate_emissions`:
`generation_mwh * 1000 * self.config.emission_factors[technology]` when the
technology is configured, `0.0` otherwise. -/
def calculate_emissions (config : EnvironmentalConfig) (technology : String)
    (generation_mwh : ℚ) : ℚ :=
  match config.emission_factors.lookup technology with
  | some f => generation_mwh * 1000 * f
  | none => 0

/-- `EnvironmentalModel.calculate_water_use`:
`generation_mwh * self.config.water_factors[technology]` when configured, else `0.0`. -/
def calculate_water_use (config : EnvironmentalConfig) (technology : String)
    (generation_mwh : ℚ) : ℚ :=
  match config.water_factors.lookup technology with
  | some f => generation_mwh * f
  | none => 0

/-- `EnvironmentalModel.calculate_land_use`:
`capacity_mw * self.config.land_use_factors[technology]` when configured, else `0.0`. -/
def calculate_land_use (config : EnvironmentalConfig) (technology : String)
    (capacity_mw : ℚ) : ℚ :=
  match config.land_use_factors.lookup technology with
  | some f => capacity_mw * f
  | none => 0

end EnvironmentalModel

/-! ### Claim C1 -/

/-- The emission-factor table `{'coal': 0.8}` from the claim's literal example. -/
def coalFactors : List (String × ℚ) := [("coal", 4/5)]

/-- Claim C1, counterexample: with `emission_factors = {'coal': 0.8}`, the
environmental calculator's `EnvironmentalModel.calculate_emissions('coal', 1000)`
does not return `800`: the method multiplies by a further factor of `1000`
(it converts the MWh argument to kWh for its per-kWh factors) and returns
`800000`. -/
theorem C1_counterexample :
    EnvironmentalModel.calculate_emissions
        ⟨coalFactors, [], []⟩ "coal" 1000 = 800000 ∧
      EnvironmentalModel.calculate_emissions
        ⟨coalFactors, [], []⟩ "coal" 1000 ≠ 800 := by
  refine ⟨?_, ?_⟩ <;>
    norm_num [EnvironmentalModel.calculate_emissions, coalFactors, List.lookup]

/-- Claim C1, amended: for every technology with a configured emission factor
`f` and every generation amount, `EnvironmentalModel.calculate_emissions`
returns `generation_mwh * 1000 * f` (not `generation_mwh * f`), while the
helper `helpers.calculate_emissions` is the pure lookup-and-multiply
`generation * f`; in particular with `{'coal': 0.8}` and `1000` MWh the model
returns `800000` and the helper returns exactly `800`. -/
theorem C1_emissions_lookup_multiply (config : EnvironmentalModel.EnvironmentalConfig)
    (technology : String) (generation_mwh f : ℚ)
    (h : config.emission_factors.lookup technology = some f) :
    EnvironmentalModel.calculate_emissions config technology generation_mwh
        = generation_mwh * 1000 * f ∧
      Helpers.calculate_emissions technology generation_mwh config.emission_factors
        = generation_mwh * f := by
  unfold EnvironmentalModel.calculate_emissions Helpers.calculate_emissions
  rw [h]
  exact ⟨rfl, rfl⟩

/-- Witness for Claim C1's amended theorem at the claim's literal example:
coal with factor `0.8` and `1000` MWh. -/
theorem C1_witness :
    coalFactors.lookup "coal" = some (4/5) ∧
      (EnvironmentalModel.calculate_emissions ⟨coalFactors, [], []⟩ "coal" 1000
          = 1000 * 1000 * (4/5) ∧
        Helpers.calculate_emissions "coal" 1000 coalFactors = 1000 * (4/5)) :=
  ⟨rfl, C1_emissions_lookup_multiply ⟨coalFactors, [], []⟩ "coal" 1000 (4/5) rfl⟩

/-! ### `models/economic_model.py` -/

namespace EconomicModel

/-- `EconomicConfig` with the defaults from `economic_model.py`
(`discount_rate=0.08`, `inflation_rate=0.05`, `opex_escalation=0.02`, ...). -/
structure EconomicConfig where
  discount_rate : ℚ := 2/25
  inflation_rate : ℚ := 1/20
  exchange_rate : ℚ := 110
  carbon_price : ℚ := 50
  fuel_prices : List (String × ℚ) := [("natural_gas", 8), ("coal", 80), ("oil", 80)]
  opex_escalation : ℚ := 1/50

/-- `EconomicConfig()` (all defaults). -/
def defaultEconomicConfig : EconomicConfig := {}

/-- The `base_costs` dictionary hard-coded in `calculate_capex` (USD/MW). -/
def base_costs : List (String × ℚ) :=
  [("solar_pv", 800000), ("wind", 1200000), ("biomass", 2000000),
   ("battery_storage", 200000), ("transmission", 500000), ("distribution", 200000)]

/-- The list of technologies `calculate_capex` applies the learning curve to:
`['solar_pv', 'wind', 'battery_storage']` (note: `biomass` is not in it). -/
def learning_technologies : List String := ["solar_pv", "wind", "battery_storage"]

/-- `cost_reduction = (1 - learning_rate) ** (years_since_2020 / 2)` with
`learning_rate = 0.2`.  Python's `/` is float division, so the exponent can be
fractional (odd `years_since_2020`); hence `Real.rpow`. -/
noncomputable def cost_reduction (year : ℤ) : ℝ :=
  (1 - 0.2 : ℝ) ^ (((year : ℝ) - 2020) / 2)

/-- `EconomicModel.calculate_capex`.  A technology absent from `base_costs`
raises `KeyError`, modelled as `none`. -/
noncomputable def calculate_capex (config : EconomicConfig) (technology : String)
    (capacity_mw : ℝ) (year : ℤ) : Option ℝ :=
  let base_cost? : Option ℝ :=
    if technology ∈ learning_technologies then
      (base_costs.lookup technology).map (fun b => (b : ℝ) * cost_reduction year)
    else
      (base_costs.lookup technology).map (fun b => (b : ℝ))
  base_cost?.map (fun base_cost =>
    base_cost * (1 + (config.inflation_rate : ℝ)) ^ (year - 2024) * capacity_mw)

/-- The `opex_rates` dictionary hard-coded in `calculate_opex`. -/
def opex_rates : List (String × ℚ) :=
  [("solar_pv", 1/100), ("wind", 3/200), ("biomass", 1/50),
   ("battery_storage", 1/50), ("transmission", 1/100), ("distribution", 3/200)]

/-- `EconomicModel.calculate_opex`: `capex * opex_rates[technology]` escalated
by `(1 + opex_escalation) ** (year - 2024)`. -/
noncomputable def calculate_opex (config : EconomicConfig) (technology : String)
    (capacity_mw : ℝ) (year : ℤ) : Option ℝ := do
  let capex ← calculate_capex config technology capacity_mw year
  let rate ← opex_rates.lookup technology
  pure (capex * (rate : ℝ) * (1 + (config.opex_escalation : ℝ)) ^ (year - 2024))

/-- The `lifetimes` dictionary hard-coded in `calculate_lcoe` and
`analyze_investment`. -/
def lifetimes : List (String × ℕ) :=
  [("solar_pv", 25), ("wind", 20), ("biomass", 20), ("battery_storage", 10)]

/-- `sum(value / (1 + discount_rate) ** t for t in range(1, lifetime + 1))`. -/
noncomputable def present_value_sum (value discount_rate : ℝ) (lifetime : ℕ) : ℝ :=
  ((List.range lifetime).map (fun t => value / (1 + discount_rate) ^ (t + 1))).sum

open Classical in
/-- `EconomicModel.calculate_lcoe`: `(capex + pv_opex) / pv_generation`.
A zero `pv_generation` raises `ZeroDivisionError` in Python, modelled as
`none`. -/
noncomputable def calculate_lcoe (config : EconomicConfig) (technology : String)
    (capacity_mw annual_generation_mwh : ℝ) (year : ℤ) : Option ℝ := do
  let lifetime ← lifetimes.lookup technology
  let capex ← calculate_capex config technology capacity_mw year
  let annual_opex ← calculate_opex config technology capacity_mw year
  let pv_opex := present_value_sum annual_opex (config.discount_rate : ℝ) lifetime
  let pv_generation :=
    present_value_sum annual_generation_mwh (config.discount_rate : ℝ) lifetime
  if pv_generation = 0 then none
  else pure ((capex + pv_opex) / pv_generation)

/-- `EconomicModel.calculate_npv`: `sum(cf / (1 + discount_rate) ** (t - year)
for t, cf in enumerate(cash_flows, start=year))`; element `i` of the list is
paired with `t = year + i`. -/
def calculate_npv (config : EconomicConfig) (cash_flows : List ℚ) (year : ℤ) : ℚ :=
  (cash_flows.enum.map
    (fun p => p.2 / (1 + config.discount_rate) ^ ((year + (p.1 : ℤ)) - year))).sum

/-- `EconomicModel.analyze_investment`, restricted to the `(capex, lcoe)`
components: the scenario and sensitivity runners read only `'capex'` and
`'lcoe'` from the returned dict.  The source additionally computes annual
revenue/cash flow, `npv`, `irr` (a `scipy` root-find that may return `None`),
and `payback_period`; none of those feed the runners' result rows. -/
noncomputable def analyze_investment (config : EconomicConfig) (technology : String)
    (capacity_mw annual_generation_mwh : ℝ) (year : ℤ) : Option (ℝ × ℝ) := do
  let capex ← calculate_capex config technology capacity_mw year
  let _annual_opex ← calculate_opex config technology capacity_mw year
  let lcoe ← calculate_lcoe config technology capacity_mw annual_generation_mwh year
  pure (capex, lcoe)

end EconomicModel

/-! ### Claim C4 -/

/-- Claim C4, counterexample: `biomass` is claimed to be a learning-curve
technology, but `calculate_capex`'s learning list is
`['solar_pv', 'wind', 'battery_storage']`; at `year = 2026`, `capacity = 1`,
the code returns `2000000 * 1.05^2` with no `(1 - 0.2) ** ((2026 - 2020) / 2)`
factor, so it differs from the claimed formula. -/
theorem C4_counterexample :
    EconomicModel.calculate_capex EconomicModel.defaultEconomicConfig "biomass" 1 2026
      ≠ some ((2000000 : ℝ) * (1 - 0.2 : ℝ) ^ ((((2026 : ℤ) : ℝ) - 2020) / 2)
          * (1 + (EconomicModel.defaultEconomicConfig.inflation_rate : ℝ))
            ^ ((2026 : ℤ) - 2024) * 1) := by
  intro h
  have hcode : EconomicModel.calculate_capex EconomicModel.defaultEconomicConfig
      "biomass" 1 2026
      = some ((2000000 : ℝ)
          * (1 + (EconomicModel.defaultEconomicConfig.inflation_rate : ℝ))
            ^ ((2026 : ℤ) - 2024) * 1) := by
    simp [EconomicModel.calculate_capex, EconomicModel.learning_technologies,
      EconomicModel.base_costs, List.lookup]
  rw [hcode] at h
  have h2 := Option.some.inj h
  have hexp : ((((2026 : ℤ) : ℝ) - 2020) / 2) = ((3 : ℕ) : ℝ) := by norm_num
  rw [hexp, Real.rpow_natCast] at h2
  have hpow : (1 + (EconomicModel.defaultEconomicConfig.inflation_rate : ℝ))
      ^ ((2026 : ℤ) - 2024) = (1 + (EconomicModel.defaultEconomicConfig.inflation_rate : ℝ))
        ^ (2 : ℕ) := by
    rw [show ((2026 : ℤ) - 2024) = ((2 : ℕ) : ℤ) by norm_num, zpow_natCast]
  rw [hpow] at h2
  norm_num [EconomicModel.defaultEconomicConfig] at h2

/-- Claim C4, amended: the learning-curve technology set in `calculate_capex`
is `{solar_pv, wind, battery_storage}` — `biomass` is not in it.  For a
learning technology with base cost `b`,
`calculate_capex = b * (1 - 0.2) ** ((year - 2020) / 2)
* (1 + inflation_rate) ** (year - 2024) * capacity_mw`; `biomass` (and every
other non-learning technology in `base_costs`) gets only the inflation
factor. -/
theorem C4_capex_formula (config : EconomicModel.EconomicConfig)
    (technology : String) (b : ℚ) (capacity_mw : ℝ) (year : ℤ)
    (hmem : technology ∈ EconomicModel.learning_technologies)
    (hb : EconomicModel.base_costs.lookup technology = some b) :
    EconomicModel.calculate_capex config technology capacity_mw year
        = some ((b : ℝ) * (1 - 0.2 : ℝ) ^ (((year : ℝ) - 2020) / 2)
            * (1 + (config.inflation_rate : ℝ)) ^ (year - 2024) * capacity_mw) ∧
      EconomicModel.calculate_capex config "biomass" capacity_mw year
        = some ((2000000 : ℝ)
            * (1 + (config.inflation_rate : ℝ)) ^ (year - 2024) * capacity_mw) := by
  constructor
  · simp [EconomicModel.calculate_capex, if_pos hmem, hb, EconomicModel.cost_reduction]
  · simp [EconomicModel.calculate_capex, EconomicModel.learning_technologies,
      EconomicModel.base_costs, List.lookup]

/-- Witness for Claim C4's amended theorem at `solar_pv`, base cost `800000`,
`capacity_mw = 1`, `year = 2026`. -/
theorem C4_witness :
    "solar_pv" ∈ EconomicModel.learning_technologies ∧
      EconomicModel.base_costs.lookup "solar_pv" = some 800000 ∧
      (EconomicModel.calculate_capex EconomicModel.defaultEconomicConfig
            "solar_pv" 1 2026
          = some (((800000 : ℚ) : ℝ) * (1 - 0.2 : ℝ) ^ ((((2026 : ℤ) : ℝ) - 2020) / 2)
              * (1 + (EconomicModel.defaultEconomicConfig.inflation_rate : ℝ))
                ^ ((2026 : ℤ) - 2024) * 1) ∧
        EconomicModel.calculate_capex EconomicModel.defaultEconomicConfig
            "biomass" 1 2026
          = some ((2000000 : ℝ)
              * (1 + (EconomicModel.defaultEconomicConfig.inflation_rate : ℝ))
                ^ ((2026 : ℤ) - 2024) * 1)) :=
  ⟨by decide, rfl,
    C4_capex_formula EconomicModel.defaultEconomicConfig "solar_pv" 800000 1 2026
      (by decide) rfl⟩

/-! ### Claim C8 -/

/-- Claim C8, counterexample: for a technology absent from `base_costs`
(e.g. `'nuclear'`), `EconomicModel.calculate_capex` does not return a silent
zero cost — the dictionary access `base_costs[technology]` raises `KeyError`
(modelled as `none`). -/
theorem C8_counterexample :
    EconomicModel.calculate_capex EconomicModel.defaultEconomicConfig "nuclear" 1 2024
        = none ∧
      EconomicModel.calculate_capex EconomicModel.defaultEconomicConfig "nuclear" 1 2024
        ≠ some 0 := by
  have h : EconomicModel.calculate_capex EconomicModel.defaultEconomicConfig
      "nuclear" 1 2024 = none := by
    simp [EconomicModel.calculate_capex, EconomicModel.learning_technologies,
      EconomicModel.base_costs, List.lookup]
  exact ⟨h, by rw [h]; exact fun hc => Option.noConfusion hc⟩

/-- Claim C8, amended: for a technology absent from the configured factor
tables, the environmental lookups (`calculate_emissions`,
`calculate_water_use`, `calculate_land_use`) return zero impact silently,
but the cost lookup `calculate_capex` raises `KeyError` (modelled `none`)
instead of returning zero. -/
theorem C8_unknown_technology (envConfig : EnvironmentalModel.EnvironmentalConfig)
    (econConfig : EconomicModel.EconomicConfig) (technology : String)
    (generation_mwh capacity_mw : ℚ) (capacity_r : ℝ) (year : ℤ)
    (he : envConfig.emission_factors.lookup technology = none)
    (hw : envConfig.water_factors.lookup technology = none)
    (hl : envConfig.land_use_factors.lookup technology = none)
    (hb : EconomicModel.base_costs.lookup technology = none) :
    EnvironmentalModel.calculate_emissions envConfig technology generation_mwh = 0 ∧
      EnvironmentalModel.calculate_water_use envConfig technology generation_mwh = 0 ∧
      EnvironmentalModel.calculate_land_use envConfig technology capacity_mw = 0 ∧
      EconomicModel.calculate_capex econConfig technology capacity_r year = none := by
  refine ⟨?_, ?_, ?_, ?_⟩
  · unfold EnvironmentalModel.calculate_emissions; rw [he]
  · unfold EnvironmentalModel.calculate_water_use; rw [hw]
  · unfold EnvironmentalModel.calculate_land_use; rw [hl]
  · unfold EconomicModel.calculate_capex
    rw [hb]
    by_cases hmem : technology ∈ EconomicModel.learning_technologies <;>
      simp [hmem]

/-- Witness for Claim C8's amended theorem at the unknown technology
`'nuclear'` against the default configurations. -/
theorem C8_witness :
    EnvironmentalModel.defaultEnvironmentalConfig.emission_factors.lookup "nuclear"
        = none ∧
      EnvironmentalModel.defaultEnvironmentalConfig.water_factors.lookup "nuclear"
        = none ∧
      EnvironmentalModel.defaultEnvironmentalConfig.land_use_factors.lookup "nuclear"
        = none ∧
      EconomicModel.base_costs.lookup "nuclear" = none ∧
      (EnvironmentalModel.calculate_emissions
            EnvironmentalModel.defaultEnvironmentalConfig "nuclear" 1000 = 0 ∧
        EnvironmentalModel.calculate_water_use
            EnvironmentalModel.defaultEnvironmentalConfig "nuclear" 1000 = 0 ∧
        EnvironmentalModel.calculate_land_use
            EnvironmentalModel.defaultEnvironmentalConfig "nuclear" 1000 = 0 ∧
        EconomicModel.calculate_capex EconomicModel.defaultEconomicConfig
            "nuclear" 1000 2024 = none) :=
  ⟨rfl, rfl, rfl, rfl,
    C8_unknown_technology EnvironmentalModel.defaultEnvironmentalConfig
      EconomicModel.defaultEconomicConfig "nuclear" 1000 1000 1000 2024
      rfl rfl rfl rfl⟩

/-! ### Claim C10 -/

/-- Claim C10: `calculate_npv(cash_flows, year)` is independent of `year`:
`enumerate(cash_flows, start=year)` pairs element `i` with `t = year + i`, so
the exponent `t - year` is just `i` and the result is
`Σ_i cash_flows[i] / (1 + discount_rate) ** i`, the first element
undiscounted (exponent `0`). -/
theorem C10_npv_year_independent (config : EconomicModel.EconomicConfig)
    (cash_flows : List ℚ) (y1 y2 : ℤ) :
    EconomicModel.calculate_npv config cash_flows y1
        = EconomicModel.calculate_npv config cash_flows y2 ∧
      EconomicModel.calculate_npv config cash_flows y1
        = (cash_flows.enum.map
            (fun p => p.2 / (1 + config.discount_rate) ^ (p.1 : ℕ))).sum := by
  have key : ∀ y : ℤ, EconomicModel.calculate_npv config cash_flows y
      = (cash_flows.enum.map
          (fun p => p.2 / (1 + config.discount_rate) ^ (p.1 : ℕ))).sum := by
    intro y
    unfold EconomicModel.calculate_npv
    simp only [add_sub_cancel_left, zpow_natCast]
  exact ⟨(key y1).trans (key y2).symm, key y1⟩

/-! ### `models/energy_system.py`

The pandas objects are modelled as follows.  A bucket of the hourly
`time_index` is a pair `(calendar year, hour within that year)`; lexicographic
order on these pairs agrees with timestamp order, which is all the masks in
the source use.  The `capacity`/`generation` frames become functions
`technology → region → bucket → Option ℚ` (a column `f"{tech}_{region}"` is
addressed by its two parts; `none` is a `NaN` cell).  The process-wide numpy
random draws become an explicit noise function. -/

/-- A bucket of the hourly time index: `(calendar year, hour of that year)`. -/
abbrev TimeBucket := ℤ × ℕ

/-- Gregorian leap-year rule (what `pd.date_range` uses to lay out hours). -/
def isLeapYear (y : ℤ) : Bool := y % 4 == 0 && (y % 100 != 0 || y % 400 == 0)

/-- Days in a calendar year. -/
def daysInYear (y : ℤ) : ℕ := if isLeapYear y then 366 else 365

/-- Hour-of-year index of the timestamp `{year}-12-31 00:00` — the value
`pd.Timestamp(f"{year}-12-31")` denotes (midnight, so the last 23 hours of the
year fall outside every `year_start ≤ t ≤ year_end` mask of the source). -/
def yearEndHour (y : ℤ) : ℕ := (daysInYear y - 1) * 24

/-- The mask `self.time_index >= pd.Timestamp(f"{year}-01-01")` used by
`add_capacity`: in bucket order this is `year ≤ bucket year`. -/
def fromYearMask (year : ℤ) (tb : TimeBucket) : Bool := year ≤ tb.1

/-- The mask `(time_index >= year-01-01) & (time_index <= year-12-31)` used by
`simulate_generation`, `calculate_renewable_share` and `get_system_summary`:
the buckets of `year` up to hour `yearEndHour year`. -/
def inYearMask (year : ℤ) (tb : TimeBucket) : Bool :=
  tb.1 == year && tb.2 ≤ yearEndHour year

/-- One value dictionary of `EnergySystemConfig.technologies`.  Only the
`'capacity_factor'` key is ever read by the modelled operations
(`simulate_generation`); it is `Option` because the `battery_storage` entry
of the default table lacks the key (reading it raises `KeyError`). -/
structure TechEntry where
  capacity_factor : Option ℚ
  deriving DecidableEq

/-- The `EnergySystem` object: configuration plus the `capacity` and
`generation` frames. -/
structure EnergySystem where
  start_year : ℤ
  end_year : ℤ
  technologies : List (String × TechEntry)
  regions : List String
  timeIndex : List TimeBucket
  capacity : String → String → TimeBucket → Option ℚ
  generation : String → String → TimeBucket → Option ℚ

/-- The default `EnergySystemConfig.technologies` capacity factors:
`solar_pv 0.15`, `wind 0.25`, `biomass 0.75`; the `battery_storage` dict has
no `'capacity_factor'` key. -/
def defaultTechnologies : List (String × TechEntry) :=
  [("solar_pv", ⟨some (3/20)⟩), ("wind", ⟨some (1/4)⟩),
   ("biomass", ⟨some (3/4)⟩), ("battery_storage", ⟨none⟩)]

/-- The default `EnergySystemConfig.regions`. -/
def defaultRegions : List String :=
  ["Dhaka", "Chittagong", "Khulna", "Rajshahi", "Sylhet", "Barishal",
   "Rangpur", "Mymensingh"]

/-- The `solar_distribution` regional shares in `set_initial_capacity`. -/
def solar_distribution : List (String × ℚ) :=
  [("Dhaka", 3/20), ("Chittagong", 1/5), ("Khulna", 3/20), ("Rajshahi", 3/20),
   ("Sylhet", 1/10), ("Barishal", 1/10), ("Rangpur", 1/10), ("Mymensingh", 1/20)]

/-- Number of buckets the hourly index has in `year`: full years have
`24 · daysInYear` hours; the final year stops at `end_year-12-31 00:00`. -/
def hoursInIndexYear (year end_year : ℤ) : ℕ :=
  if year = end_year then yearEndHour year + 1 else daysInYear year * 24

/-- The hourly `pd.date_range(f"{start}-01-01", f"{end}-12-31", freq='1H')`. -/
def hourlyIndex (start_year end_year : ℤ) : List TimeBucket :=
  (List.range (end_year - start_year + 1).toNat).flatMap
    (fun k => (List.range (hoursInIndexYear (start_year + k) end_year)).map
      (fun h => (start_year + k, h)))

/-- `set_initial_capacity`: writes `946 * share` into `.iloc[0]` (the very
first bucket, `(start_year, 0)`) of each `solar_pv_{region}` column; every
other cell of the capacity frame stays `NaN`. -/
def set_initial_capacity (start_year : ℤ) :
    String → String → TimeBucket → Option ℚ :=
  fun tech region tb =>
    if tech = "solar_pv" ∧ tb = (start_year, 0) then
      (solar_distribution.lookup region).map (fun share => 946 * share)
    else none

/-- `EnergySystem(EnergySystemConfig())`: default years 2024–2050, default
technologies/regions, initial capacity from `set_initial_capacity`, and an
all-`NaN` generation frame.  (The demand frame is not modelled: none of the
modelled outputs read it.) -/
def defaultEnergySystem : EnergySystem where
  start_year := 2024
  end_year := 2050
  technologies := defaultTechnologies
  regions := defaultRegions
  timeIndex := hourlyIndex 2024 2050
  capacity := set_initial_capacity 2024
  generation := fun _ _ _ => none

/-- `EnergySystem.add_capacity`: reads `current_capacity` from `.iloc[0]`
(the first bucket of the whole horizon) and assigns
`current_capacity + capacity_mw` to every bucket satisfying
`time_index >= {year}-01-01`. -/
def EnergySystem.add_capacity (es : EnergySystem) (technology region : String)
    (capacity_mw : ℚ) (year : ℤ) : EnergySystem :=
  let current_capacity := es.capacity technology region (es.start_year, 0)
  { es with capacity := fun t r tb =>
      if t = technology ∧ r = region ∧ fromYearMask year tb = true then
        current_capacity.map (fun c => c + capacity_mw)
      else es.capacity t r tb }

/-- `np.clip(x, lo, hi)`. -/
def clip (x lo hi : ℚ) : ℚ := min (max x lo) hi

/-- The per-bucket random draws of `np.random.normal(0, 0.05, len(capacity))`,
made explicit. -/
abbrev Noise := String → String → TimeBucket → ℚ

/-- The assignment
`self.generation.loc[year_mask, f"{tech}_{region}"] = capacity * np.clip(cf + cf_variation, 0, 1)`
performed for one `(technology, region)` pair inside `simulate_generation`. -/
def updateGeneration (s : EnergySystem) (technology region : String) (cf : ℚ)
    (noise : Noise) (year : ℤ) : EnergySystem :=
  { s with generation := fun t r tb =>
      if t = technology ∧ r = region ∧ inYearMask year tb = true then
        (s.capacity t r tb).map (fun cap => cap * clip (cf + noise t r tb) 0 1)
      else s.generation t r tb }

/-- `EnergySystem.simulate_generation(year)`: for every technology key and
every region, look up `self.config.technologies[tech]['capacity_factor']`
(a missing key — `battery_storage` in the default table — raises `KeyError`,
modelled `none`) and overwrite that column's generation on the year mask. -/
def EnergySystem.simulate_generation (es : EnergySystem) (noise : Noise)
    (year : ℤ) : Option EnergySystem :=
  (es.technologies.map Prod.fst).foldlM
    (fun s tech =>
      es.regions.foldlM
        (fun s' region => do
          let entry ← es.technologies.lookup tech
          let cf ← entry.capacity_factor
          pure (updateGeneration s' tech region cf noise year))
        s)
    es

/-- `['solar_pv', 'wind', 'biomass']`: `calculate_renewable_share` keeps the
columns whose name contains one of these as a substring; on the configured
columns `f"{tech}_{region}"` that is exactly the columns whose technology part
is one of the three (no region name contains any of them). -/
def renewable_techs : List String := ["solar_pv", "wind", "biomass"]

/-- The column set of the frames: one column per (technology key, region). -/
def EnergySystem.columns (es : EnergySystem) : List (String × String) :=
  (es.technologies.map Prod.fst).flatMap
    (fun tech => es.regions.map (fun region => (tech, region)))

/-- `self.generation.loc[year_mask, cols].sum().sum()`: the double sum over
the year's buckets and the given columns, skipping `NaN` cells. -/
def yearGenerationSum (es : EnergySystem) (year : ℤ)
    (cols : List (String × String)) : ℚ :=
  (cols.map (fun c =>
    ((es.timeIndex.filter (fun tb => inYearMask year tb)).map
      (fun tb => (es.generation c.1 c.2 tb).getD 0)).sum)).sum

/-- `EnergySystem.calculate_renewable_share(year)`:
`renewable_generation / total_generation if total_generation > 0 else 0`. -/
def EnergySystem.calculate_renewable_share (es : EnergySystem) (year : ℤ) : ℚ :=
  let renewable_generation :=
    yearGenerationSum es year
      (es.columns.filter (fun c => renewable_techs.contains c.1))
  let total_generation := yearGenerationSum es year es.columns
  if 0 < total_generation then renewable_generation / total_generation else 0

/-- The `groupby(lambda x: x.split('_')[0])` key of a column
`f"{tech}_{region}"` — note this truncates `solar_pv` to `"solar"` and
`battery_storage` to `"battery"`. -/
def groupKey (tech region : String) : String :=
  ((tech ++ "_" ++ region).splitOn "_").headD ""

/-- `capacity_by_technology` of `get_system_summary(year)`: the year-end
row `self.capacity.loc[year_end]` grouped by `groupKey` and summed
(`NaN`-skipping, so an all-`NaN` group sums to `0`). -/
def capacity_by_technology (es : EnergySystem) (year : ℤ) : List (String × ℚ) :=
  let keys := (es.columns.map (fun c => groupKey c.1 c.2)).eraseDups
  keys.map (fun k => (k,
    ((es.columns.filter (fun c => groupKey c.1 c.2 == k)).map
      (fun c => (es.capacity c.1 c.2 (year, yearEndHour year)).getD 0)).sum))

/-- `generation_by_technology` of `get_system_summary(year)`: the year-mask
slice of the generation frame summed per column, then grouped by `groupKey`
and summed. -/
def generation_by_technology (es : EnergySystem) (year : ℤ) : List (String × ℚ) :=
  let keys := (es.columns.map (fun c => groupKey c.1 c.2)).eraseDups
  keys.map (fun k => (k,
    ((es.columns.filter (fun c => groupKey c.1 c.2 == k)).map
      (fun c => ((es.timeIndex.filter (fun tb => inYearMask year tb)).map
        (fun tb => (es.generation c.1 c.2 tb).getD 0)).sum)).sum))

/-! ### Claim C5 -/

/-- Claim C5, failing evaluation: `add_capacity` does not add to each bucket's
own value — it assigns `capacity.iloc[0] + capacity_mw` across the mask.
On the default system (Dhaka initial solar `946 * 0.15`), adding `10` MW in
2025 and then `20` MW in 2026 leaves the 2026 bucket at `iloc[0] + 20`, not at
`(iloc[0] + 10) + 20`: the second addition discards the first instead of
accumulating. -/
theorem C5_add_capacity_discards_prior :
    ((defaultEnergySystem.add_capacity "solar_pv" "Dhaka" 10 2025).capacity
        "solar_pv" "Dhaka" (2026, 0) = some (946 * (3/20) + 10)) ∧
      (((defaultEnergySystem.add_capacity "solar_pv" "Dhaka" 10 2025).add_capacity
          "solar_pv" "Dhaka" 20 2026).capacity "solar_pv" "Dhaka" (2026, 0)
        = some (946 * (3/20) + 20)) ∧
      (946 * (3/20) + 20 : ℚ) ≠ (946 * (3/20) + 10) + 20 := by
  refine ⟨?_, ?_, ?_⟩
  · simp [EnergySystem.add_capacity, defaultEnergySystem, set_initial_capacity,
      fromYearMask, solar_distribution, List.lookup]
  · simp [EnergySystem.add_capacity, defaultEnergySystem, set_initial_capacity,
      fromYearMask, solar_distribution, List.lookup]
  · norm_num

/-! ### Claim C9 -/

/-- Invariant of the `simulate_generation` fold started from `es`: the
capacity frame is untouched, and every generation cell either still holds its
original value or holds the written
`capacity * clip(capacity_factor + noise, 0, 1)` for a bucket of the
simulated year. -/
def SimStep (es : EnergySystem) (noise : Noise) (year : ℤ)
    (s : EnergySystem) : Prop :=
  s.capacity = es.capacity ∧
    ∀ t r tb, s.generation t r tb = es.generation t r tb ∨
      (inYearMask year tb = true ∧ ∃ cf,
        (es.technologies.lookup t).bind TechEntry.capacity_factor = some cf ∧
          s.generation t r tb
            = (es.capacity t r tb).map
                (fun cap => cap * clip (cf + noise t r tb) 0 1))

/-- A property preserved by each step of an `Option`-valued `foldlM` holds of
its result. -/
lemma foldlM_option_invariant {α β : Type} (P : β → Prop)
    (step : β → α → Option β)
    (hstep : ∀ s x s₂, step s x = some s₂ → P s → P s₂) :
    ∀ (l : List α) (s s' : β), l.foldlM step s = some s' → P s → P s' := by
  intro l
  induction l with
  | nil =>
    intro s s' h hP
    simp only [List.foldlM_nil, Option.pure_def, Option.some.injEq] at h
    exact h ▸ hP
  | cons x xs ih =>
    intro s s' h hP
    rw [List.foldlM_cons] at h
    cases hsx : step s x with
    | none => rw [hsx] at h; simp at h
    | some s₂ =>
      rw [hsx] at h
      simp only [Option.bind_eq_bind, Option.some_bind] at h
      exact ih s₂ s' h (hstep s x s₂ hsx hP)

/-- The per-region body of `simulate_generation` preserves `SimStep`. -/
lemma simStep_region (es : EnergySystem) (noise : Noise) (year : ℤ)
    (tech : String) :
    ∀ (s : EnergySystem) (region : String) (s₂ : EnergySystem),
      (do
        let entry ← es.technologies.lookup tech
        let cf ← entry.capacity_factor
        pure (updateGeneration s tech region cf noise year)) = some s₂ →
      SimStep es noise year s → SimStep es noise year s₂ := by
  intro s region s₂ h hs
  cases hlk : es.technologies.lookup tech with
  | none => rw [hlk] at h; simp at h
  | some entry =>
    rw [hlk] at h
    simp only [Option.bind_eq_bind, Option.some_bind] at h
    cases hcf : entry.capacity_factor with
    | none => rw [hcf] at h; simp at h
    | some cf =>
      rw [hcf] at h
      simp only [Option.bind_eq_bind, Option.some_bind, Option.pure_def,
        Option.some.injEq] at h
      subst h
      refine ⟨hs.1, ?_⟩
      intro t r tb
      by_cases hcond : t = tech ∧ r = region ∧ inYearMask year tb = true
      · right
        refine ⟨hcond.2.2, cf, ?_, ?_⟩
        · simp [hcond.1, hlk, hcf]
        · simp only [updateGeneration, if_pos hcond]
          rw [hs.1]
      · have hgen : (updateGeneration s tech region cf noise year).generation t r tb
            = s.generation t r tb := by
          simp only [updateGeneration, if_neg hcond]
        rw [hgen]
        exact hs.2 t r tb

/-- On success, `simulate_generation` establishes `SimStep`. -/
lemma simulate_generation_simStep (es es' : EnergySystem) (noise : Noise)
    (year : ℤ) (h : es.simulate_generation noise year = some es') :
    SimStep es noise year es' := by
  have hbase : SimStep es noise year es := ⟨rfl, fun t r tb => Or.inl rfl⟩
  unfold EnergySystem.simulate_generation at h
  refine foldlM_option_invariant (SimStep es noise year) _ ?_ _ es es' h hbase
  intro s tech s₂ hstep hP
  exact foldlM_option_invariant (SimStep es noise year) _
    (fun s' region s₃ h' hP' => simStep_region es noise year tech s' region s₃ h' hP')
    es.regions s s₂ hstep hP

/-- Claim C9: after a successful `simulate_generation(year)`, the generation
written for a bucket (any bucket that held no generation before the call and
holds some afterwards) with defined non-negative capacity `cap` is at most
`cap * 1.0`: the effective capacity factor is clipped to `[0, 1]` before being
multiplied by the capacity. -/
theorem C9_generation_bounded_by_capacity (es es' : EnergySystem) (noise : Noise)
    (year : ℤ) (technology region : String) (tb : TimeBucket) (cap g : ℚ)
    (hsim : es.simulate_generation noise year = some es')
    (hcap : es.capacity technology region tb = some cap)
    (hnn : 0 ≤ cap)
    (hfresh : es.generation technology region tb = none)
    (hg : es'.generation technology region tb = some g) :
    g ≤ cap * 1 := by
  obtain ⟨-, hgen⟩ := simulate_generation_simStep es es' noise year hsim
  rcases hgen technology region tb with hsame | ⟨-, cf, -, hval⟩
  · rw [hsame, hfresh] at hg
    exact absurd hg (by simp)
  · have hgval : g = cap * clip (cf + noise technology region tb) 0 1 := by
      rw [hval, hcap] at hg
      simpa using hg.symm
    rw [hgval]
    exact mul_le_mul_of_nonneg_left (min_le_right _ _) hnn

/-- A one-technology, one-region, one-bucket system used to witness C9. -/
def c9System : EnergySystem where
  start_year := 2024
  end_year := 2024
  technologies := [("solar_pv", ⟨some (3/20)⟩)]
  regions := ["Dhaka"]
  timeIndex := [(2024, 0)]
  capacity := fun tech region tb =>
    if tech = "solar_pv" ∧ region = "Dhaka" ∧ tb = (2024, 0) then some 100 else none
  generation := fun _ _ _ => none

/-- The all-zeros noise stream. -/
def noiseZero : Noise := fun _ _ _ => 0

/-- The state `simulate_generation` produces from `c9System`. -/
def c9SystemAfter : EnergySystem :=
  updateGeneration c9System "solar_pv" "Dhaka" (3/20) noiseZero 2024

/-- Witness for Claim C9: on `c9System` (100 MW of solar in Dhaka, zero
noise), the simulated bucket holds `100 * clip(0.15 + 0, 0, 1) = 15 ≤ 100`. -/
theorem C9_witness :
    c9System.simulate_generation noiseZero 2024 = some c9SystemAfter ∧
      c9System.capacity "solar_pv" "Dhaka" (2024, 0) = some 100 ∧
      (0 : ℚ) ≤ 100 ∧
      c9System.generation "solar_pv" "Dhaka" (2024, 0) = none ∧
      c9SystemAfter.generation "solar_pv" "Dhaka" (2024, 0)
        = some (100 * clip (3/20 + 0) 0 1) ∧
      100 * clip (3/20 + 0) 0 1 ≤ (100 : ℚ) * 1 := by
  refine ⟨rfl, rfl, by norm_num, rfl, rfl, ?_⟩
  exact C9_generation_bounded_by_capacity c9System c9SystemAfter noiseZero 2024
    "solar_pv" "Dhaka" (2024, 0) 100 (100 * clip (3/20 + 0) 0 1)
    rfl rfl (by norm_num) rfl rfl

/-! ### Claim C7 -/

/-- Claim C7: whenever every (non-`NaN`) generation cell is non-negative —
which is how the simulation writes them, capacity times a factor clipped to
`[0, 1]` — `calculate_renewable_share(year)` lies in `[0, 1]`: it is the sum
of generation over the renewable-tagged columns divided by the sum over all
columns, and it returns exactly `0` when the total generation for the year is
`0` (the `if total_generation > 0` guard, so it never divides by zero). -/
theorem C7_renewable_share_in_unit_interval (es : EnergySystem) (year : ℤ)
    (h : ∀ c ∈ es.columns, ∀ tb ∈ es.timeIndex,
      0 ≤ (es.generation c.1 c.2 tb).getD 0) :
    0 ≤ es.calculate_renewable_share year ∧
      es.calculate_renewable_share year ≤ 1 ∧
      (yearGenerationSum es year es.columns = 0 →
        es.calculate_renewable_share year = 0) := by
  have hinner : ∀ c ∈ es.columns,
      0 ≤ ((es.timeIndex.filter (fun tb => inYearMask year tb)).map
        (fun tb => (es.generation c.1 c.2 tb).getD 0)).sum := by
    intro c hc
    apply List.sum_nonneg
    intro x hx
    obtain ⟨tb, htb, rfl⟩ := List.mem_map.mp hx
    exact h c hc tb (List.mem_of_mem_filter htb)
  have htotal : 0 ≤ yearGenerationSum es year es.columns :=
    List.sum_nonneg (fun x hx => by
      obtain ⟨c, hc, rfl⟩ := List.mem_map.mp hx
      exact hinner c hc)
  have hrnn : 0 ≤ yearGenerationSum es year
      (es.columns.filter (fun c => renewable_techs.contains c.1)) :=
    List.sum_nonneg (fun x hx => by
      obtain ⟨c, hc, rfl⟩ := List.mem_map.mp hx
      exact hinner c (List.mem_of_mem_filter hc))
  have hsub : yearGenerationSum es year
      (es.columns.filter (fun c => renewable_techs.contains c.1))
      ≤ yearGenerationSum es year es.columns := by
    unfold yearGenerationSum
    refine List.Sublist.sum_le_sum ((List.filter_sublist _).map _) ?_
    intro x hx
    obtain ⟨c, hc, rfl⟩ := List.mem_map.mp hx
    exact hinner c hc
  unfold EnergySystem.calculate_renewable_share
  by_cases hpos : 0 < yearGenerationSum es year es.columns
  · simp only [if_pos hpos]
    refine ⟨div_nonneg hrnn (le_of_lt hpos), (div_le_one hpos).mpr hsub, ?_⟩
    intro h0
    rw [h0] at hpos
    exact absurd hpos (lt_irrefl 0)
  · simp only [if_neg hpos]
    exact ⟨le_refl 0, zero_le_one, fun _ => by trivial⟩

/-- A two-column system (30 MWh solar, 70 MWh coal in the single bucket) used
to witness C7. -/
def c7System : EnergySystem where
  start_year := 2024
  end_year := 2024
  technologies := [("solar_pv", ⟨some (3/20)⟩), ("coal", ⟨some (4/5)⟩)]
  regions := ["Dhaka"]
  timeIndex := [(2024, 0)]
  capacity := fun _ _ _ => none
  generation := fun tech _ tb =>
    if tb = (2024, 0) then
      if tech = "solar_pv" then some 30
      else if tech = "coal" then some 70
      else none
    else none

/-- Witness for Claim C7 on `c7System`: every cell is non-negative, and the
renewable share obeys the bounds. -/
theorem C7_witness :
    (∀ c ∈ c7System.columns, ∀ tb ∈ c7System.timeIndex,
      0 ≤ (c7System.generation c.1 c.2 tb).getD 0) ∧
      (0 ≤ c7System.calculate_renewable_share 2024 ∧
        c7System.calculate_renewable_share 2024 ≤ 1 ∧
        (yearGenerationSum c7System 2024 c7System.columns = 0 →
          c7System.calculate_renewable_share 2024 = 0)) := by
  have hh : ∀ c ∈ c7System.columns, ∀ tb ∈ c7System.timeIndex,
      0 ≤ (c7System.generation c.1 c.2 tb).getD 0 := by
    intro c hc tb htb
    fin_cases hc <;> fin_cases htb <;> simp [c7System]
  exact ⟨hh, C7_renewable_share_in_unit_interval c7System 2024 hh⟩

/-! ### `config/simulation_config.py` -/

/-- One value dictionary of `SimulationConfig.TECHNOLOGIES`. -/
structure TechParams where
  capacity_factor : ℚ
  capex : ℚ
  opex : ℚ
  lifetime : ℕ
  land_use : ℚ
  water_use : ℚ
  emission_factor : ℚ
  deriving DecidableEq

/-- `SimulationConfig.ECONOMIC_PARAMS`. -/
structure EconomicParams where
  discount_rate : ℚ
  inflation_rate : ℚ
  exchange_rate : ℚ
  carbon_price : ℚ
  fuel_prices : List (String × ℚ)
  opex_escalation : ℚ
  deriving DecidableEq

/-- `SimulationConfig.POLICY_PARAMS` (the `carbon_tax` sub-dict flattened). -/
structure PolicyParams where
  renewable_incentives : List (String × ℚ)
  carbon_tax_start_year : ℤ
  carbon_tax_initial_rate : ℚ
  carbon_tax_annual_increase : ℚ
  grid_connection_fee : ℚ
  feed_in_tariff : List (String × ℚ)
  deriving DecidableEq

/-- `SimulationConfig.SOCIAL_PARAMS`. -/
structure SocialParams where
  employment_factors : List (String × ℚ)
  community_benefits : List (String × ℚ)
  deriving DecidableEq

/-- `SimulationConfig`: the fields the scenario/sensitivity code reads or
writes.  (`ENVIRONMENTAL_PARAMS`, `GRID_PARAMS`, `STORAGE_PARAMS` and
`DEMAND_PARAMS` are neither read nor written on any modelled path and are
omitted.) -/
structure SimulationConfig where
  START_YEAR : ℤ
  END_YEAR : ℤ
  RENEWABLE_TARGETS : List (ℤ × ℚ)
  TECHNOLOGIES : List (String × TechParams)
  ECONOMIC_PARAMS : EconomicParams
  POLICY_PARAMS : PolicyParams
  SOCIAL_PARAMS : SocialParams
  deriving DecidableEq

/-- `SimulationConfig()`: the literal defaults of `simulation_config.py`.
`TechParams` fields are in declaration order
(capacity_factor, capex, opex, lifetime, land_use, water_use, emission_factor). -/
def defaultSimulationConfig : SimulationConfig where
  START_YEAR := 2024
  END_YEAR := 2050
  RENEWABLE_TARGETS := [(2030, 3/20), (2041, 2/5), (2050, 1)]
  TECHNOLOGIES :=
    [("solar_pv", ⟨9/50, 800, 15, 25, 5/2, 0, 0⟩),
     ("wind", ⟨1/4, 1200, 30, 20, 1/2, 0, 0⟩),
     ("biomass", ⟨7/10, 2500, 100, 20, 1/10, 3/2, 0⟩),
     ("natural_gas", ⟨17/20, 1000, 50, 25, 1/20, 1, 2/5⟩),
     ("coal", ⟨4/5, 2000, 80, 30, 1/10, 2, 4/5⟩)]
  ECONOMIC_PARAMS :=
    ⟨2/25, 1/20, 110, 50, [("natural_gas", 5), ("coal", 60), ("oil", 80)], 1/50⟩
  POLICY_PARAMS :=
    ⟨[("solar_pv", 1/10), ("wind", 3/20), ("biomass", 1/5)], 2025, 20, 1/20, 1000,
     [("solar_pv", 3/25), ("wind", 1/10), ("biomass", 2/25)]⟩
  SOCIAL_PARAMS :=
    ⟨[("solar_pv", 1/2), ("wind", 3/10), ("biomass", 1), ("natural_gas", 1/5),
      ("coal", 2/5)],
     [("solar_pv", 1/50), ("wind", 1/50), ("biomass", 1/20)]⟩

/-! ### The shared annual result loop of `run_scenarios.py` /
`run_sensitivity.py`

`Scenario.run` and `SensitivityAnalysis.run_base_case` contain the identical
per-year block; it is modelled once (`annual_loop`).  The loop constructs its
models from `EnergySystemConfig()`, `EconomicConfig()` and
`EnvironmentalConfig()` — all defaults, taking nothing from
`self.config` — and reads `self.config` only at `START_YEAR`, `END_YEAR`
(the `range`) and `SOCIAL_PARAMS['employment_factors']` (the employment
step). -/

/-- One row of the `results` dict the loop appends to. -/
structure ResultRow where
  year : ℤ
  renewable_share : ℚ
  total_capacity : ℚ
  total_generation : ℚ
  emissions : ℚ
  investment : ℝ
  lcoe : ℝ
  water_use : ℚ
  land_use : ℚ
  employment : ℚ

/-- `range(START_YEAR, END_YEAR + 1)`. -/
def yearRange (start_year end_year : ℤ) : List ℤ :=
  (List.range (end_year + 1 - start_year).toNat).map (fun k => start_year + k)

/-- The loop's economic block: for each technology with positive capacity,
`analyze_investment` and accumulate `(total_investment, total_lcoe,
tech_count)`. -/
noncomputable def economicTotals (config : EconomicModel.EconomicConfig)
    (cap_by_tech gen_by_tech : List (String × ℚ)) (year : ℤ) :
    Option (ℝ × ℝ × ℕ) :=
  cap_by_tech.foldlM
    (fun acc p =>
      if 0 < p.2 then do
        let generation := (gen_by_tech.lookup p.1).getD 0
        let investment ← EconomicModel.analyze_investment config p.1 (p.2 : ℝ)
          (generation : ℝ) year
        pure (acc.1 + investment.1, acc.2.1 + investment.2, acc.2.2 + 1)
      else pure acc)
    (0, 0, 0)

/-- The loop's environmental block: accumulate
`(total_emissions, total_water_use, total_land_use)` over
`generation_by_technology`, fetching the matching capacity with
`.get(tech, 0)` for land use. -/
def environmentalTotals (config : EnvironmentalModel.EnvironmentalConfig)
    (gen_by_tech cap_by_tech : List (String × ℚ)) : ℚ × ℚ × ℚ :=
  gen_by_tech.foldl
    (fun acc p =>
      let capacity := (cap_by_tech.lookup p.1).getD 0
      (acc.1 + EnvironmentalModel.calculate_emissions config p.1 p.2,
        acc.2.1 + EnvironmentalModel.calculate_water_use config p.1 p.2,
        acc.2.2 + EnvironmentalModel.calculate_land_use config p.1 capacity))
    (0, 0, 0)

/-- The loop's employment block: for each technology with positive capacity,
`calculate_employment(tech, capacity / 1000, employment_factors)` — the
division is the source's `capacity / 1000,  # Convert to MW`, applied to a
`capacity_by_technology` value that is already in MW. -/
def employmentTotal (cap_by_tech employment_factors : List (String × ℚ)) : ℚ :=
  cap_by_tech.foldl
    (fun total p =>
      if 0 < p.2 then
        total + Helpers.calculate_employment p.1 (p.2 / 1000) employment_factors
      else total)
    0

/-- One year of the loop, after `simulate_generation`: the row appended to
`results` (total capacity/generation are the sums of the summary dicts;
`avg_lcoe` is `total_lcoe / tech_count if tech_count > 0 else 0`). -/
noncomputable def annualRow (social : SocialParams) (es : EnergySystem)
    (year : ℤ) : Option ResultRow := do
  let cap_by_tech := capacity_by_technology es year
  let gen_by_tech := generation_by_technology es year
  let econ ← economicTotals {} cap_by_tech gen_by_tech year
  let env := environmentalTotals EnvironmentalModel.defaultEnvironmentalConfig
    gen_by_tech cap_by_tech
  pure { year := year
         renewable_share := es.calculate_renewable_share year
         total_capacity := (cap_by_tech.map Prod.snd).sum
         total_generation := (gen_by_tech.map Prod.snd).sum
         emissions := env.1
         investment := econ.1
         lcoe := if 0 < econ.2.2 then econ.2.1 / (econ.2.2 : ℝ) else 0
         water_use := env.2.1
         land_use := env.2.2
         employment := employmentTotal cap_by_tech social.employment_factors }

/-- The full annual loop shared by `Scenario.run` and
`SensitivityAnalysis.run_base_case`: an `EnergySystem(EnergySystemConfig())`
threaded through `simulate_generation(year)` for
`range(START_YEAR, END_YEAR + 1)`, one `ResultRow` appended per year. -/
noncomputable def annual_loop (cfg : SimulationConfig) (noise : Noise) :
    Option (List ResultRow) :=
  ((yearRange cfg.START_YEAR cfg.END_YEAR).foldlM
    (fun (st : EnergySystem × List ResultRow) (year : ℤ) => do
      let es ← st.1.simulate_generation noise year
      let row ← annualRow cfg.SOCIAL_PARAMS es year
      pure (es, st.2 ++ [row]))
    (defaultEnergySystem, ([] : List ResultRow))).map Prod.snd

/-- `Scenario.run`: apply `self.modify_config()` to the scenario's
`SimulationConfig`, then run the annual loop. -/
noncomputable def Scenario.run (modify_config : SimulationConfig → SimulationConfig)
    (cfg : SimulationConfig) (noise : Noise) : Option (List ResultRow) :=
  annual_loop (modify_config cfg) noise

/-- `self.config.TECHNOLOGIES[tech]['capex'] *= factor` (and `'opex'`) for
each tech in `techs`. -/
def scaleTechCosts (techs : List String) (factor : ℚ)
    (l : List (String × TechParams)) : List (String × TechParams) :=
  l.map (fun p =>
    if p.1 ∈ techs then
      (p.1, { p.2 with capex := p.2.capex * factor, opex := p.2.opex * factor })
    else p)

/-- `POLICY_PARAMS['renewable_incentives'][tech] *= factor` for every key. -/
def scaleIncentives (factor : ℚ) (pp : PolicyParams) : PolicyParams :=
  { pp with renewable_incentives :=
      pp.renewable_incentives.map (fun p => (p.1, p.2 * factor)) }

/-- `BaselineScenario.modify_config` — a no-op (`pass`). -/
def BaselineScenario.modify_config (cfg : SimulationConfig) : SimulationConfig :=
  cfg

/-- `AcceleratedTransitionScenario.modify_config`: raises renewable targets,
scales solar/wind/biomass capex and opex by `0.8`, scales incentives by
`1.5`. -/
def AcceleratedTransitionScenario.modify_config (cfg : SimulationConfig) :
    SimulationConfig :=
  { cfg with
    RENEWABLE_TARGETS := [(2030, 1/4), (2041, 3/5), (2050, 1)]
    TECHNOLOGIES := scaleTechCosts ["solar_pv", "wind", "biomass"] (4/5)
      cfg.TECHNOLOGIES
    POLICY_PARAMS := scaleIncentives (3/2) cfg.POLICY_PARAMS }

/-- `DelayedTransitionScenario.modify_config`: lowers renewable targets,
scales solar/wind/biomass capex and opex by `1.2`, scales incentives by
`0.8`. -/
def DelayedTransitionScenario.modify_config (cfg : SimulationConfig) :
    SimulationConfig :=
  { cfg with
    RENEWABLE_TARGETS := [(2030, 1/10), (2041, 3/10), (2050, 4/5)]
    TECHNOLOGIES := scaleTechCosts ["solar_pv", "wind", "biomass"] (6/5)
      cfg.TECHNOLOGIES
    POLICY_PARAMS := scaleIncentives (4/5) cfg.POLICY_PARAMS }

/-- The annual loop reads only `START_YEAR`, `END_YEAR` and `SOCIAL_PARAMS`
of the configuration. -/
lemma annual_loop_congr (c1 c2 : SimulationConfig) (noise : Noise)
    (h1 : c1.START_YEAR = c2.START_YEAR) (h2 : c1.END_YEAR = c2.END_YEAR)
    (h3 : c1.SOCIAL_PARAMS = c2.SOCIAL_PARAMS) :
    annual_loop c1 noise = annual_loop c2 noise := by
  unfold annual_loop
  rw [h1, h2, h3]

/-! ### Claim C3 -/

/-- Claim C3: `Scenario.run` builds its models from freshly constructed
default configurations (`EnergySystemConfig()`, `EconomicConfig()`,
`EnvironmentalConfig()`) and reads `self.config` only at `START_YEAR`,
`END_YEAR` and `SOCIAL_PARAMS` — none of which the scenario
`modify_config` methods touch (they change `RENEWABLE_TARGETS`,
`TECHNOLOGIES`, `POLICY_PARAMS`).  Hence, for the same random stream, the
accelerated and delayed scenario runs are identical to the baseline run:
the scenario modifications have no effect on any output. -/
theorem C3_scenario_modifications_no_effect (cfg : SimulationConfig)
    (noise : Noise) :
    Scenario.run AcceleratedTransitionScenario.modify_config cfg noise
        = Scenario.run BaselineScenario.modify_config cfg noise ∧
      Scenario.run DelayedTransitionScenario.modify_config cfg noise
        = Scenario.run BaselineScenario.modify_config cfg noise :=
  ⟨annual_loop_congr _ _ noise rfl rfl rfl,
    annual_loop_congr _ _ noise rfl rfl rfl⟩

/-! ### Claim C6 -/

/-- Claim C6, failing evaluation: the annual loop's employment step divides
the MW capacity by 1000 before calling the helper (the source comment says
"Convert to MW", but `capacity_by_technology` is already in MW), so with
`employment_factors = {'solar_pv': 0.5}` and 100 MW of solar the loop appends
`0.05` jobs, while `calculate_employment('solar_pv', 100)` itself returns the
expected `50`. -/
theorem C6_employment_counterexample :
    employmentTotal [("solar_pv", 100)] [("solar_pv", 1/2)] = 1/20 ∧
      Helpers.calculate_employment "solar_pv" 100 [("solar_pv", 1/2)] = 50 ∧
      (1/20 : ℚ) ≠ 100 * (1/2) := by
  refine ⟨?_, ?_, by norm_num⟩
  · norm_num [employmentTotal, Helpers.calculate_employment, List.lookup]
  · norm_num [Helpers.calculate_employment, List.lookup]

/-! ### `run_sensitivity.py` -/

/-- `TECHNOLOGIES[name]['field'] = value` on the association list. -/
def setTechParams (l : List (String × TechParams)) (name : String)
    (f : TechParams → TechParams) : List (String × TechParams) :=
  l.map (fun p => if p.1 = name then (p.1, f p.2) else p)

/-- `SensitivityAnalysis._modify_parameter`: mutate one field of the
persistent `self.config` (modelled by returning the updated configuration);
an unrecognised parameter name raises `ValueError`, modelled `none`. -/
def modify_parameter (cfg : SimulationConfig) (parameter : String)
    (value : ℚ) : Option SimulationConfig :=
  if parameter = "discount_rate" then
    some { cfg with ECONOMIC_PARAMS :=
      { cfg.ECONOMIC_PARAMS with discount_rate := value } }
  else if parameter = "inflation_rate" then
    some { cfg with ECONOMIC_PARAMS :=
      { cfg.ECONOMIC_PARAMS with inflation_rate := value } }
  else if parameter = "carbon_price" then
    some { cfg with ECONOMIC_PARAMS :=
      { cfg.ECONOMIC_PARAMS with carbon_price := value } }
  else if parameter = "solar_capex" then
    let techs := setTechParams cfg.TECHNOLOGIES "solar_pv"
      (fun t => { t with capex := value })
    some { cfg with TECHNOLOGIES := techs }
  else if parameter = "wind_capex" then
    let techs := setTechParams cfg.TECHNOLOGIES "wind"
      (fun t => { t with capex := value })
    some { cfg with TECHNOLOGIES := techs }
  else if parameter = "biomass_capex" then
    let techs := setTechParams cfg.TECHNOLOGIES "biomass"
      (fun t => { t with capex := value })
    some { cfg with TECHNOLOGIES := techs }
  else if parameter = "solar_capacity_factor" then
    let techs := setTechParams cfg.TECHNOLOGIES "solar_pv"
      (fun t => { t with capacity_factor := value })
    some { cfg with TECHNOLOGIES := techs }
  else if parameter = "wind_capacity_factor" then
    let techs := setTechParams cfg.TECHNOLOGIES "wind"
      (fun t => { t with capacity_factor := value })
    some { cfg with TECHNOLOGIES := techs }
  else if parameter = "biomass_capacity_factor" then
    let techs := setTechParams cfg.TECHNOLOGIES "biomass"
      (fun t => { t with capacity_factor := value })
    some { cfg with TECHNOLOGIES := techs }
  else none

/-- `SensitivityAnalysis.run_base_case`: textually the same annual loop as
`Scenario.run` (without any `modify_config` step). -/
noncomputable def run_base_case (cfg : SimulationConfig) (noise : Noise) :
    Option (List ResultRow) :=
  annual_loop cfg noise

/-- One iteration of the sweep in
`SensitivityAnalysis.run_sensitivity_analysis`: `_modify_parameter` (mutating
`self.config`), `run_base_case`, `df[df['year'] == target_year].iloc[0]`
(an empty selection raises `IndexError`, modelled `none`), append. -/
noncomputable def sensitivity_step (parameter : String) (noise : Noise)
    (target_year : ℤ) (st : SimulationConfig × List (ℚ × ResultRow))
    (value : ℚ) : Option (SimulationConfig × List (ℚ × ResultRow)) := do
  let cfg ← modify_parameter st.1 parameter value
  let df ← run_base_case cfg noise
  let row ← (df.filter (fun r => r.year == target_year)).head?
  pure (cfg, st.2 ++ [(value, row)])

/-- `SensitivityAnalysis.run_sensitivity_analysis`: run the sweep over the
candidate values, returning the final state of the persistent `self.config`
together with the per-candidate target-year rows. -/
noncomputable def run_sensitivity_analysis (cfg : SimulationConfig)
    (parameter : String) (values : List ℚ) (noise : Noise) (target_year : ℤ) :
    Option (SimulationConfig × List (ℚ × ResultRow)) :=
  values.foldlM (sensitivity_step parameter noise target_year) (cfg, [])

/-- The configuration component of a successful sweep is exactly the fold of
`_modify_parameter` over the candidate values: the runs never restore
`self.config`, so each mutation persists into all later runs. -/
lemma run_sensitivity_config_state (parameter : String) (noise : Noise)
    (target_year : ℤ) :
    ∀ (values : List ℚ) (st : SimulationConfig × List (ℚ × ResultRow))
      (final : SimulationConfig) (rows : List (ℚ × ResultRow)),
      values.foldlM (sensitivity_step parameter noise target_year) st
          = some (final, rows) →
      values.foldlM (fun c v => modify_parameter c parameter v) st.1
          = some final := by
  intro values
  induction values with
  | nil =>
    intro st final rows h
    simp only [List.foldlM_nil, Option.pure_def, Option.some.injEq] at h
    subst h
    rfl
  | cons v vs ih =>
    intro st final rows h
    rw [List.foldlM_cons] at h
    cases hstep : sensitivity_step parameter noise target_year st v with
    | none => rw [hstep] at h; simp at h
    | some st₂ =>
      rw [hstep] at h
      simp only [Option.bind_eq_bind, Option.some_bind] at h
      have hcfg : modify_parameter st.1 parameter v = some st₂.1 := by
        unfold sensitivity_step at hstep
        cases hm : modify_parameter st.1 parameter v with
        | none => rw [hm] at hstep; simp at hstep
        | some cfg' =>
          rw [hm] at hstep
          simp only [Option.bind_eq_bind, Option.some_bind] at hstep
          cases hdf : run_base_case cfg' noise with
          | none => rw [hdf] at hstep; simp at hstep
          | some df =>
            rw [hdf] at hstep
            simp only [Option.bind_eq_bind, Option.some_bind] at hstep
            cases hrow : (df.filter (fun r => r.year == target_year)).head? with
            | none => rw [hrow] at hstep; simp at hstep
            | some row =>
              rw [hrow] at hstep
              simp only [Option.bind_eq_bind, Option.some_bind, Option.pure_def,
                Option.some.injEq] at hstep
              rw [← hstep]
      rw [List.foldlM_cons, hcfg]
      simp only [Option.bind_eq_bind, Option.some_bind]
      exact ih st₂ final rows h

/-! ### Claim C2 -/

/-- Claim C2, counterexample: the sweep never re-derives `self.config` from a
pristine base — by `run_sensitivity_config_state`, after a successful sweep of
`'solar_capex'` over `[600, 800, 1000]` the persistent configuration is the
plain fold of `_modify_parameter`, whose solar capex is the last candidate
`1000`, not the pristine `800`; that state is what every later parameter's
runs start from. -/
theorem C2_counterexample :
    (do
      let c1 ← modify_parameter defaultSimulationConfig "solar_capex" 600
      let c2 ← modify_parameter c1 "solar_capex" 800
      let c3 ← modify_parameter c2 "solar_capex" 1000
      pure ((c3.TECHNOLOGIES.lookup "solar_pv").map TechParams.capex))
        = some (some 1000) ∧
      (defaultSimulationConfig.TECHNOLOGIES.lookup "solar_pv").map TechParams.capex
        = some 800 ∧
      (1000 : ℚ) ≠ 800 := by
  refine ⟨rfl, rfl, by norm_num⟩

/-- Claim C2, amended: `_modify_parameter` mutates the single persistent
`self.config` in place, and the sweep never restores it, so mutations do leak
into all later runs (see `C2_counterexample` and
`run_sensitivity_config_state`).  The extracted rows are nevertheless
isolated: every recognised mutation leaves `START_YEAR`, `END_YEAR` and
`SOCIAL_PARAMS` — the only configuration fields `run_base_case` reads —
unchanged, so the run after any mutation equals the run from the pristine
configuration, and (the runs being deterministic functions of the noise
stream) the same candidate value with the same noise always yields the same
rows. -/
theorem C2_mutation_isolated_in_results (cfg cfg' : SimulationConfig)
    (parameter : String) (value : ℚ) (noise : Noise)
    (h : modify_parameter cfg parameter value = some cfg') :
    run_base_case cfg' noise = run_base_case cfg noise := by
  unfold modify_parameter at h
  split_ifs at h <;>
    (simp only [Option.some.injEq] at h
     subst h
     exact annual_loop_congr _ _ noise rfl rfl rfl)

/-- The configuration `_modify_parameter('discount_rate', 0.05)` produces
from the default. -/
def c2ModifiedConfig : SimulationConfig :=
  { defaultSimulationConfig with ECONOMIC_PARAMS :=
      { defaultSimulationConfig.ECONOMIC_PARAMS with discount_rate := 1/20 } }

/-- Witness for Claim C2's amended theorem: mutating `discount_rate` to
`0.05` does not change the rows `run_base_case` produces. -/
theorem C2_witness :
    modify_parameter defaultSimulationConfig "discount_rate" (1/20)
        = some c2ModifiedConfig ∧
      run_base_case c2ModifiedConfig noiseZero
        = run_base_case defaultSimulationConfig noiseZero :=
  ⟨rfl, C2_mutation_isolated_in_results defaultSimulationConfig c2ModifiedConfig
    "discount_rate" (1/20) noiseZero rfl⟩
